import Mathlib

/-!
Shallow embedding of the Voxell DLC authentication backend
(src/main.py together with the collection schema in src/schemas.py).

Modelling conventions:
* Time is UNIX seconds as `Nat`.  Both `jwt.encode` (python-jose) and the
  `exp` validation in `jwt.decode` work at one-second granularity, because
  jose converts datetime claims with `timegm(utctimetuple())` and compares
  against `timegm(datetime.utcnow().utctimetuple())`.
* The HMAC signature of a JWT is modelled symbolically: a token records the
  key and the payload that were signed, and signature verification checks
  that they match the presented key and the carried payload.  This is the
  standard symbolic model of an unforgeable MAC.
* passlib's bcrypt is modelled symbolically as well: a well-formed bcrypt
  hash records its salt and the key bytes that were hashed.  bcrypt only
  consumes the first 72 bytes of the password (passlib's bcrypt handler
  silently truncates longer passwords, since its default truncate_error is
  False), so a hash stores `take 72` of the password's UTF-8 bytes, and
  verification recomputes and compares them.  A string that is not a
  well-formed hash is `StoredHash.malformed`; passlib's CryptContext.verify
  raises UnknownHashError on such input, modelled as `Except.error`.
* MongoDB documents are association lists from field names to values,
  matching the duck-typed dicts the source reads and writes; the
  "playeruser" collection is the list of its documents in insertion order,
  and `find_one` returns the first match.  The `_id` field added by the
  pymongo driver on insert is not modelled; no claim depends on it.
-/

deriving instance DecidableEq for Except

namespace Voxell

/-- JWT claim values occurring in this program: strings, and timestamps
(datetimes are converted to integer UNIX seconds by jose's encoder). -/
inductive CVal where
  | str (s : String)
  | time (t : Nat)
  deriving DecidableEq

/-- A JWT claim set, as the ordered key-value pairs of a Python dict. -/
abbrev Payload := List (String × CVal)

/-- SECRET_KEY from src/main.py line 14 (the insecure default used when the
environment variable is absent). -/
def SECRET_KEY : String := "dev-secret-key-change-me"

/-- ACCESS_TOKEN_EXPIRE_MINUTES from src/main.py line 16.  Defined in the
source ("7 days") but never used anywhere in it. -/
def ACCESS_TOKEN_EXPIRE_MINUTES : Nat := 60 * 24 * 7

/-- A JWT.  `payload` is the claim set it carries; `sigKey` and
`signedPayload` are the key and claim set that its HMAC signature actually
covers (symbolic MAC model). -/
structure Token where
  payload : Payload
  sigKey : String
  signedPayload : Payload
  deriving DecidableEq

/-- jose `jwt.encode`: sign the claim set with the key. -/
def jwtEncode (payload : Payload) (key : String) : Token :=
  { payload := payload, sigKey := key, signedPayload := payload }

/-- The signature check performed by jose `jwt.decode`. -/
def validSignature (t : Token) (key : String) : Bool :=
  t.sigKey == key && t.signedPayload == t.payload

/-- Errors raised by jose `jwt.decode`; all are subclasses of JWTError, so
all are caught by the `except JWTError` in the /me handler. -/
inductive JWTError where
  | signatureInvalid
  | expiredSignature
  | claimsInvalid
  deriving DecidableEq

/-- jose `jwt.decode(token, key, algorithms)` at time `now`: verify the
signature, then validate registered claims with the default options.  With
zero leeway an `exp` claim fails exactly when `exp < now`; an `exp` that is
not a number and a `sub` that is not a string raise JWTClaimsError (jose
validates `exp` before `sub`).  On success the claim set is returned. -/
def jwtDecode (t : Token) (key : String) (now : Nat) :
    Except JWTError Payload :=
  if validSignature t key then
    match t.payload.lookup "exp" with
    | some (CVal.str _) => .error .claimsInvalid
    | some (CVal.time e) =>
        if e < now then .error .expiredSignature
        else match t.payload.lookup "sub" with
          | some (CVal.time _) => .error .claimsInvalid
          | _ => .ok t.payload
    | none =>
        match t.payload.lookup "sub" with
        | some (CVal.time _) => .error .claimsInvalid
        | _ => .ok t.payload
  else .error .signatureInvalid

/-- Python `dict` update: replace the value in place if the key is present,
otherwise append the pair at the end. -/
def dictSet (d : Payload) (k : String) (v : CVal) : Payload :=
  if (d.lookup k).isSome then
    d.map (fun kv => if kv.1 == k then (k, v) else kv)
  else d ++ [(k, v)]

/-- `create_access_token` from src/main.py lines 66-70: copy the data dict,
set claim "exp" to the current UTC time (`datetime.now(timezone.utc)` with
no offset added: ACCESS_TOKEN_EXPIRE_MINUTES is not applied), and sign with
SECRET_KEY. -/
def create_access_token (data : Payload) (now : Nat) : Token :=
  jwtEncode (dictSet data "exp" (CVal.time now)) SECRET_KEY

/-- UTF-8 encoding of a string as a byte list. -/
def utf8Bytes (s : String) : List UInt8 :=
  s.data.flatMap String.utf8EncodeChar

/-- bcrypt consumes only the first 72 bytes of the password; passlib's
bcrypt handler truncates longer inputs silently (truncate_error defaults to
False). -/
def bcryptTruncate (p : String) : List UInt8 :=
  (utf8Bytes p).take 72

/-- A string held in the password_hash field, viewed through passlib's hash
identification: either a well-formed bcrypt hash (recording its salt and
the key bytes it digests, symbolic model) or a malformed string such as the
empty string. -/
inductive StoredHash where
  | bcrypt (salt : Nat) (key72 : List UInt8)
  | malformed (s : String)
  deriving DecidableEq

/-- Error raised by passlib `CryptContext.verify` when the hash string
cannot be identified as any configured scheme (UnknownHashError). -/
inductive PasslibError where
  | unknownHash
  deriving DecidableEq

/-- `hash_password` from src/main.py lines 60-61: bcrypt with a fresh
random salt, taken here as the parameter `salt`. -/
def hash_password (password : String) (salt : Nat) : StoredHash :=
  .bcrypt salt (bcryptTruncate password)

/-- `verify_password` from src/main.py lines 63-64: passlib
`pwd_context.verify(password, password_hash)`.  On a well-formed bcrypt
hash it recomputes with the embedded salt and compares; on a malformed
hash string passlib raises UnknownHashError (it does not return False). -/
def verify_password (password : String) (password_hash : StoredHash) :
    Except PasslibError Bool :=
  match password_hash with
  | .bcrypt _ key72 => .ok (bcryptTruncate password == key72)
  | .malformed _ => .error .unknownHash

/-- Values stored in MongoDB documents by this program. -/
inductive DVal where
  | str (s : String)
  | hashv (h : StoredHash)
  | strList (l : List String)
  | time (t : Nat)
  | pynone
  | bool (b : Bool)
  deriving DecidableEq

/-- A MongoDB document: ordered field-value pairs. -/
abbrev Doc := List (String × DVal)

/-- The "playeruser" collection, in insertion order. -/
abbrev Store := List Doc

/-- `get_user_by_email` from src/main.py lines 54-58:
`db["playeruser"].find_one` with an email filter returns the first document
whose email field equals the given email, if any. -/
def get_user_by_email (store : Store) (email : String) : Option Doc :=
  store.find? (fun d => d.lookup "email" == some (DVal.str email))

/-- Outcome of the /auth/register handler. -/
inductive RegisterOutcome where
  | created (t : Token)
  | httpError (status : Nat) (detail : String)
  deriving DecidableEq

/-- The user document built by `register` in src/main.py lines 126-134,
with the password hashed using `salt` and both timestamps taken at `now`.
Note the literal dict has no is_active field and is inserted as-is (the
Playeruser schema of src/schemas.py is never applied). -/
def registerUserDoc (email password nickname : String)
    (avatar_url : Option String) (salt now : Nat) : Doc :=
  [("email", DVal.str email),
   ("password_hash", DVal.hashv (hash_password password salt)),
   ("nickname", DVal.str nickname),
   ("avatar_url", match avatar_url with
                  | some u => DVal.str u
                  | none => DVal.pynone),
   ("roles", DVal.strList ["player"]),
   ("created_at", DVal.time now),
   ("updated_at", DVal.time now)]

/-- `register` from src/main.py lines 121-139.  The handler touches the
store twice: `get_user_by_email` reads the collection state `storeAtCheck`,
and `insert_one` appends to the collection state `storeAtInsert`; in a
sequential run the two coincide, and they differ only when another request
writes between the two calls.  `insert_one` performs no conflict detection
(the source creates no unique index and handles no exception), so it is an
unconditional append.  Returns the HTTP outcome and the collection state
after the handler. -/
def register (storeAtCheck storeAtInsert : Store)
    (email password nickname : String) (avatar_url : Option String)
    (salt now : Nat) : RegisterOutcome × Store :=
  if (get_user_by_email storeAtCheck email).isSome then
    (.httpError 400 "Почта уже зарегистрирована", storeAtInsert)
  else
    (.created (create_access_token [("sub", CVal.str email)] now),
     storeAtInsert ++ [registerUserDoc email password nickname avatar_url salt now])

/-- Outcome of the /auth/login handler.  `internalError` is an exception
escaping the handler (FastAPI turns it into a 500 response). -/
inductive LoginOutcome where
  | ok (t : Token)
  | httpError (status : Nat) (detail : String)
  | internalError (e : PasslibError)
  deriving DecidableEq

/-- `login` from src/main.py lines 141-148.  `user.get("password_hash", "")`
yields the empty string (a malformed hash) when the field is absent; any
exception from `verify_password` propagates out of the handler. -/
def login (store : Store) (email password : String) (now : Nat) :
    LoginOutcome :=
  match get_user_by_email store email with
  | none => .httpError 401 "Неверные данные для входа"
  | some user =>
    let stored : StoredHash :=
      match user.lookup "password_hash" with
      | some (DVal.hashv h) => h
      | _ => .malformed ""
    match verify_password password stored with
    | .error e => .internalError e
    | .ok false => .httpError 401 "Неверные данные для входа"
    | .ok true => .ok (create_access_token [("sub", CVal.str email)] now)

/-- The ProfileResponse schema of src/main.py lines 45-50. -/
structure ProfileResponse where
  id : String
  email : String
  nickname : String
  avatar_url : Option String
  roles : List String
  deriving DecidableEq

/-- Python `str()` of an optional document value, as used for
`str(doc.get("_id"))`; `str(None)` is "None". -/
def pyStr : Option DVal → String
  | none => "None"
  | some (DVal.str s) => s
  | some (DVal.hashv _) => ""
  | some (DVal.strList l) => String.intercalate ", " l
  | some (DVal.time t) => toString t
  | some DVal.pynone => "None"
  | some (DVal.bool b) => if b then "True" else "False"

/-- Pydantic validation of a required string field (EmailStr format
checking is not modelled beyond requiring a string; no claim depends on
it). -/
def asStr : Option DVal → Option String
  | some (DVal.str s) => some s
  | _ => none

/-- Pydantic validation of the optional avatar_url field: an absent field
or Python None validates to None. -/
def asOptStr : Option DVal → Option (Option String)
  | some (DVal.str s) => some (some s)
  | some DVal.pynone => some none
  | none => some none
  | _ => none

/-- The roles argument `doc.get("roles", ["player"])` followed by pydantic
validation as a list of strings. -/
def asRoles : Option DVal → Option (List String)
  | some (DVal.strList l) => some l
  | none => some ["player"]
  | _ => none

/-- `user_to_profile` from src/main.py lines 73-80: build a ProfileResponse
from the five projected fields.  Returns none when pydantic rejects the
field values (which FastAPI surfaces as an internal error). -/
def user_to_profile (doc : Doc) : Option ProfileResponse :=
  match asStr (doc.lookup "email"), asStr (doc.lookup "nickname"),
        asOptStr (doc.lookup "avatar_url"), asRoles (doc.lookup "roles") with
  | some e, some n, some a, some r =>
      some { id := pyStr (doc.lookup "_id"), email := e, nickname := n,
             avatar_url := a, roles := r }
  | _, _, _, _ => none

/-- The JSON serialization of a ProfileResponse: exactly its five declared
fields, in declaration order. -/
def ProfileResponse.fields (p : ProfileResponse) : List (String × DVal) :=
  [("id", DVal.str p.id),
   ("email", DVal.str p.email),
   ("nickname", DVal.str p.nickname),
   ("avatar_url", match p.avatar_url with
                  | some u => DVal.str u
                  | none => DVal.pynone),
   ("roles", DVal.strList p.roles)]

/-- Outcome of the /me handler. -/
inductive MeOutcome where
  | ok (p : ProfileResponse)
  | httpError (status : Nat) (detail : String)
  | internalError
  deriving DecidableEq

/-- `me` from src/main.py lines 156-170.  `jwt.decode` runs under
`except JWTError`, which maps every decode failure to 401 "Invalid token";
a missing or empty (falsy) "sub" raises HTTPException(401, "Invalid token")
from inside the try block, which is not a JWTError and propagates as-is;
only then is the user looked up. -/
def me (token : Token) (now : Nat) (store : Store) : MeOutcome :=
  match jwtDecode token SECRET_KEY now with
  | .error _ => .httpError 401 "Invalid token"
  | .ok payload =>
    match payload.lookup "sub" with
    | some (CVal.str email) =>
      if email == "" then .httpError 401 "Invalid token"
      else
        match get_user_by_email store email with
        | none => .httpError 404 "Пользователь не найден"
        | some user =>
          match user_to_profile user with
          | some p => .ok p
          | none => .internalError
    | _ => .httpError 401 "Invalid token"

/-- The nickname length bounds declared on the Playeruser collection schema
in src/schemas.py line 24 (min_length 3, max_length 32). -/
def playeruserNicknameValid (nickname : String) : Bool :=
  3 ≤ nickname.length && nickname.length ≤ 32

/-- A 72-character ASCII password (exactly bcrypt's 72-byte limit). -/
def pw72 : String := String.mk (List.replicate 72 'a')

/-- A 73-character ASCII password, one byte past bcrypt's 72-byte limit. -/
def pw73 : String := String.mk (List.replicate 73 'a')

/-- A concrete registered user document. -/
def aliceDoc : Doc := registerUserDoc "a@x.com" "pw123" "Alice" none 7 1000

/-- A concrete user document with an avatar. -/
def carolDoc : Doc :=
  registerUserDoc "c@x.com" "pw999" "Carol" (some "http://a/i.png") 11 2000

/-- The profile projected from `carolDoc` (no _id field, so str(None)). -/
def carolProfile : ProfileResponse :=
  { id := "None", email := "c@x.com", nickname := "Carol",
    avatar_url := some "http://a/i.png", roles := ["player"] }

/-- A concrete stored user with a well-formed bcrypt hash. -/
def bobDoc : Doc :=
  [("email", DVal.str "b@x.com"),
   ("password_hash", DVal.hashv (hash_password "rightpw" 9))]

/-- A one-user collection holding `bobDoc`. -/
def bobStore : Store := [bobDoc]

/-- C1: the round trip fails as soon as the clock advances by one second.
`create_access_token` sets claim "exp" to the issuance instant itself (the
unused ACCESS_TOKEN_EXPIRE_MINUTES is never added), and `jwt.decode` in the
/me handler validates "exp" with zero leeway, so a token issued at second
1000 and decoded at second 1001 raises ExpiredSignatureError (a JWTError)
and /me answers 401 "Invalid token" even though the user exists — not the
subject round trip the claim states. -/
theorem c1_token_expired_at_decode :
    jwtDecode (create_access_token [("sub", CVal.str "a@x.com")] 1000)
        SECRET_KEY 1001 = .error .expiredSignature ∧
    me (create_access_token [("sub", CVal.str "a@x.com")] 1000) 1001 [aliceDoc]
      = .httpError 401 "Invalid token" := by decide

/-- C2 counterexample: the claim set signed for subject "a@x.com" has no
"iat" claim at all, and it does carry an expiration claim "exp". -/
theorem c2_counterexample :
    (create_access_token [("sub", CVal.str "a@x.com")] 1000).payload.lookup "iat"
      = none ∧
    (create_access_token [("sub", CVal.str "a@x.com")] 1000).payload.lookup "exp"
      = some (CVal.time 1000) := by decide

/-- C2 amended: for every subject e, the claim set signed by token issuance
is exactly sub = e followed by exp = now — an expiration claim set to the
issuance instant, and no issued-at claim. -/
theorem c2_payload_is_sub_then_exp (e : String) (now : Nat) :
    (create_access_token [("sub", CVal.str e)] now).payload
      = [("sub", CVal.str e), ("exp", CVal.time now)] := rfl

/-- C3 counterexample: passlib verification of the empty (malformed) stored
hash raises UnknownHashError rather than returning false, and login against
a stored user whose password_hash is malformed escapes the handler as an
internal error (HTTP 500), not as 401. -/
theorem c3_counterexample :
    verify_password "pw123" (StoredHash.malformed "") = .error .unknownHash ∧
    login [[("email", DVal.str "a@x.com"),
            ("password_hash", DVal.hashv (StoredHash.malformed ""))]]
        "a@x.com" "pw123" 1000 = .internalError .unknownHash := by decide

/-- C3 amended: for every password p and malformed stored hash, passlib's
verify raises UnknownHashError (it never returns false there), so login on
a stored user whose password_hash is malformed — or missing, which the
handler turns into the malformed empty string — surfaces an internal error
to the caller instead of the 401 InvalidCredentials outcome. -/
theorem c3_malformed_hash_raises (p s email : String) (store : Store)
    (u : Doc) (now : Nat)
    (hu : get_user_by_email store email = some u)
    (hh : u.lookup "password_hash" = some (DVal.hashv (StoredHash.malformed s))) :
    verify_password p (StoredHash.malformed s) = .error .unknownHash ∧
    login store email p now = .internalError .unknownHash := by
  refine ⟨rfl, ?_⟩
  simp only [login, hu, hh, verify_password]

/-- Witness for C3 amended at a concrete store. -/
theorem c3_malformed_hash_raises_witness :
    verify_password "letmein" (StoredHash.malformed "notahash") = .error .unknownHash ∧
    login [[("email", DVal.str "m@x.com"),
            ("password_hash", DVal.hashv (StoredHash.malformed "notahash"))]]
        "m@x.com" "letmein" 5 = .internalError .unknownHash :=
  c3_malformed_hash_raises "letmein" "notahash" "m@x.com"
    [[("email", DVal.str "m@x.com"),
      ("password_hash", DVal.hashv (StoredHash.malformed "notahash"))]]
    [("email", DVal.str "m@x.com"),
     ("password_hash", DVal.hashv (StoredHash.malformed "notahash"))]
    5 (by decide) (by decide)

/-- C9 counterexample: bcrypt consumes only the first 72 bytes of a
password, and passlib truncates silently, so the distinct 73-'a' password
verifies against a hash of the 72-'a' password. -/
theorem c9_counterexample :
    pw73 ≠ pw72 ∧
    verify_password pw73 (hash_password pw72 0) = .ok true := by decide

/-- C9 amended: verifying p against a fresh hash of p always succeeds, and
verifying p1 against a hash of p2 fails exactly when p1 and p2 differ in
their first 72 UTF-8 bytes (bcrypt's truncation limit); in particular it
fails for all p1 ≠ p2 of at most 72 bytes. -/
theorem c9_verify_roundtrip (p p1 p2 : String) (s s1 : Nat)
    (hdiff : bcryptTruncate p1 ≠ bcryptTruncate p2) :
    verify_password p (hash_password p s) = .ok true ∧
    verify_password p1 (hash_password p2 s1) = .ok false := by
  constructor
  · simp [verify_password, hash_password]
  · simp [verify_password, hash_password, hdiff]

/-- Witness for C9 amended at concrete passwords. -/
theorem c9_verify_roundtrip_witness :
    verify_password "hunter2" (hash_password "hunter2" 3) = .ok true ∧
    verify_password "hunter2" (hash_password "hunter3" 4) = .ok false :=
  c9_verify_roundtrip "hunter2" "hunter2" "hunter3" 3 4 (by decide)

/-- Helper: whenever jose decode succeeds it returns the token's own
claim set. -/
theorem jwtDecode_ok_payload (t : Token) (key : String) (now : Nat)
    (pl : Payload) (h : jwtDecode t key now = .ok pl) : pl = t.payload := by
  unfold jwtDecode at h
  repeat' split at h
  all_goals first
    | exact (Except.ok.inj h).symm
    | exact absurd h (by simp)

/-- C5: the login failure for a nonexistent email and the login failure for
an existing email with a wrong password (against a well-formed stored
bcrypt hash) are the same outcome: HTTP 401 with the same detail string,
so the two causes cannot be told apart from the response. -/
theorem c5_login_indistinguishable (store : Store) (e1 e2 p1 p2 : String)
    (n1 n2 : Nat) (u : Doc) (salt : Nat) (key72 : List UInt8)
    (h1 : get_user_by_email store e1 = none)
    (h2 : get_user_by_email store e2 = some u)
    (hh : u.lookup "password_hash"
            = some (DVal.hashv (StoredHash.bcrypt salt key72)))
    (hw : verify_password p2 (StoredHash.bcrypt salt key72) = .ok false) :
    login store e1 p1 n1 = login store e2 p2 n2 ∧
    login store e1 p1 n1 = .httpError 401 "Неверные данные для входа" := by
  have hA : login store e1 p1 n1
      = .httpError 401 "Неверные данные для входа" := by
    simp only [login, h1]
  have hB : login store e2 p2 n2
      = .httpError 401 "Неверные данные для входа" := by
    simp only [login, h2, hh, hw]
  exact ⟨hA.trans hB.symm, hA⟩

/-- Witness for C5 at a concrete one-user store. -/
theorem c5_login_indistinguishable_witness :
    login bobStore "nobody@x.com" "whatever" 1
      = login bobStore "b@x.com" "wrongpw" 2 ∧
    login bobStore "nobody@x.com" "whatever" 1
      = .httpError 401 "Неверные данные для входа" :=
  c5_login_indistinguishable bobStore "nobody@x.com" "b@x.com" "whatever"
    "wrongpw" 1 2 bobDoc 9 (bcryptTruncate "rightpw")
    (by decide) (by decide) (by decide) (by decide)

/-- C6: whenever /me returns a profile, its serialization consists of
exactly the five fields id, email, nickname, avatar_url and roles — the
projection of the user document — and in particular never contains the
password hash field, for any document contents. -/
theorem c6_profile_projection (doc : Doc) (p : ProfileResponse)
    (h : user_to_profile doc = some p) :
    (ProfileResponse.fields p).map Prod.fst
      = ["id", "email", "nickname", "avatar_url", "roles"] ∧
    "password_hash" ∉ (ProfileResponse.fields p).map Prod.fst ∧
    p.id = pyStr (doc.lookup "_id") ∧
    asStr (doc.lookup "email") = some p.email ∧
    asStr (doc.lookup "nickname") = some p.nickname ∧
    asOptStr (doc.lookup "avatar_url") = some p.avatar_url ∧
    asRoles (doc.lookup "roles") = some p.roles := by
  have hkeys : (ProfileResponse.fields p).map Prod.fst
      = ["id", "email", "nickname", "avatar_url", "roles"] := rfl
  refine ⟨hkeys, by rw [hkeys]; decide, ?_⟩
  unfold user_to_profile at h
  split at h
  next e n a r he hn ha hr =>
    injection h with h
    subst h
    exact ⟨rfl, he, hn, ha, hr⟩
  next => exact absurd h (by simp)

/-- Witness for C6 at a concrete document (whose password_hash is a real
stored field, excluded from the projection). -/
theorem c6_profile_projection_witness :
    (ProfileResponse.fields carolProfile).map Prod.fst
      = ["id", "email", "nickname", "avatar_url", "roles"] ∧
    "password_hash" ∉ (ProfileResponse.fields carolProfile).map Prod.fst ∧
    carolProfile.id = pyStr (carolDoc.lookup "_id") ∧
    asStr (carolDoc.lookup "email") = some carolProfile.email ∧
    asStr (carolDoc.lookup "nickname") = some carolProfile.nickname ∧
    asOptStr (carolDoc.lookup "avatar_url") = some carolProfile.avatar_url ∧
    asRoles (carolDoc.lookup "roles") = some carolProfile.roles :=
  c6_profile_projection carolDoc carolProfile (by decide)

/-- C10: on a token whose signature is valid but whose claim set carries no
"sub" claim, or an empty one, /me answers 401 "Invalid token"; that answer
does not depend on the store (the user lookup is never reached), and it is
the very outcome produced for any token whose signature fails. -/
theorem c10_me_rejects_missing_sub (t : Token) (now : Nat) (store : Store)
    (hsig : validSignature t SECRET_KEY = true)
    (hsub : t.payload.lookup "sub" = none ∨
            t.payload.lookup "sub" = some (CVal.str "")) :
    me t now store = .httpError 401 "Invalid token" ∧
    (∀ other : Store, me t now other = me t now store) ∧
    (∀ bad : Token, validSignature bad SECRET_KEY = false →
        me bad now store = me t now store) := by
  have hme : ∀ st : Store, me t now st = .httpError 401 "Invalid token" := by
    intro st
    unfold me
    rcases hd : jwtDecode t SECRET_KEY now with e | pl
    case error => rfl
    case ok =>
      have hpl := jwtDecode_ok_payload t SECRET_KEY now pl hd
      subst hpl
      rcases hsub with hs | hs <;> simp [hs]
  have hbad401 : ∀ bad : Token, validSignature bad SECRET_KEY = false →
      me bad now store = .httpError 401 "Invalid token" := by
    intro bad hbad
    unfold me jwtDecode
    rw [hbad]
    rfl
  exact ⟨hme store, fun other => (hme other).trans (hme store).symm,
         fun bad hbad => (hbad401 bad hbad).trans (hme store).symm⟩

/-- Witness for C10 at a concrete signed token with an empty claim set. -/
theorem c10_me_rejects_missing_sub_witness :
    me (Token.mk [] SECRET_KEY []) 1000 bobStore
      = .httpError 401 "Invalid token" ∧
    (∀ other : Store, me (Token.mk [] SECRET_KEY []) 1000 other
        = me (Token.mk [] SECRET_KEY []) 1000 bobStore) ∧
    (∀ bad : Token, validSignature bad SECRET_KEY = false →
        me bad 1000 bobStore = me (Token.mk [] SECRET_KEY []) 1000 bobStore) :=
  c10_me_rejects_missing_sub (Token.mk [] SECRET_KEY []) 1000 bobStore
    (by decide) (Or.inl (by decide))

/-- C7 counterexample: a concrete successful registration writes exactly
the seven-field document, which has no is_active field at all (the
Playeruser schema and its is_active default are never applied). -/
theorem c7_counterexample :
    (register [] [] "a@x.com" "pw123" "Alice" none 7 1000).1
      = .created (create_access_token [("sub", CVal.str "a@x.com")] 1000) ∧
    (register [] [] "a@x.com" "pw123" "Alice" none 7 1000).2 = [aliceDoc] ∧
    aliceDoc.lookup "is_active" = none := by decide

/-- C7 amended: every successful registration appends exactly the document
whose roles are the singleton player list, whose password_hash is the
bcrypt hash of the given password (truncated key bytes and salt, never the
plaintext), whose created_at and updated_at are now — and which carries no
is_active field. -/
theorem c7_registered_record (sc si : Store) (email pw nick : String)
    (av : Option String) (salt now : Nat) (tok : Token)
    (hs : (register sc si email pw nick av salt now).1 = .created tok) :
    (register sc si email pw nick av salt now).2
      = si ++ [registerUserDoc email pw nick av salt now] ∧
    (registerUserDoc email pw nick av salt now).lookup "roles"
      = some (DVal.strList ["player"]) ∧
    (registerUserDoc email pw nick av salt now).lookup "password_hash"
      = some (DVal.hashv (StoredHash.bcrypt salt (bcryptTruncate pw))) ∧
    (registerUserDoc email pw nick av salt now).lookup "created_at"
      = some (DVal.time now) ∧
    (registerUserDoc email pw nick av salt now).lookup "updated_at"
      = some (DVal.time now) ∧
    (registerUserDoc email pw nick av salt now).lookup "is_active" = none := by
  by_cases hc : (get_user_by_email sc email).isSome = true
  · exfalso
    unfold register at hs
    rw [if_pos hc] at hs
    exact absurd hs (by simp)
  · unfold register
    rw [if_neg hc]
    exact ⟨rfl, rfl, rfl, rfl, rfl, rfl⟩

/-- Witness for C7 amended at a concrete registration. -/
theorem c7_registered_record_witness :
    (register [] [] "c@x.com" "pw999" "Carol" (some "http://a/i.png") 11 2000).2
      = [] ++ [registerUserDoc "c@x.com" "pw999" "Carol"
                (some "http://a/i.png") 11 2000] ∧
    (registerUserDoc "c@x.com" "pw999" "Carol"
        (some "http://a/i.png") 11 2000).lookup "roles"
      = some (DVal.strList ["player"]) ∧
    (registerUserDoc "c@x.com" "pw999" "Carol"
        (some "http://a/i.png") 11 2000).lookup "password_hash"
      = some (DVal.hashv (StoredHash.bcrypt 11 (bcryptTruncate "pw999"))) ∧
    (registerUserDoc "c@x.com" "pw999" "Carol"
        (some "http://a/i.png") 11 2000).lookup "created_at"
      = some (DVal.time 2000) ∧
    (registerUserDoc "c@x.com" "pw999" "Carol"
        (some "http://a/i.png") 11 2000).lookup "updated_at"
      = some (DVal.time 2000) ∧
    (registerUserDoc "c@x.com" "pw999" "Carol"
        (some "http://a/i.png") 11 2000).lookup "is_active" = none :=
  c7_registered_record [] [] "c@x.com" "pw999" "Carol"
    (some "http://a/i.png") 11 2000
    (create_access_token [("sub", CVal.str "c@x.com")] 2000) (by decide)

/-- C8: registration enforces no nickname length bounds.  The two-character
nickname "ab" violates the 3..32 constraint that src/schemas.py declares on
the Playeruser collection, yet the register handler (whose RegisterRequest
declares nickname as a plain string) accepts it and stores it verbatim. -/
theorem c8_short_nickname_accepted :
    playeruserNicknameValid "ab" = false ∧
    (register [] [] "a@x.com" "pw123" "ab" none 7 1000).1
      = .created (create_access_token [("sub", CVal.str "a@x.com")] 1000) ∧
    (register [] [] "a@x.com" "pw123" "ab" none 7 1000).2
      = [registerUserDoc "a@x.com" "pw123" "ab" none 7 1000] ∧
    (registerUserDoc "a@x.com" "pw123" "ab" none 7 1000).lookup "nickname"
      = some (DVal.str "ab") := by decide

/-- C4 counterexample: the insert path detects no conflict.  When the
collection is empty at the pre-insert check but already holds a user with
the same email by the time insert_one runs (the TOCTOU window the two store
parameters of `register` model), registration succeeds — 200 with a token,
not DuplicateEmail — and the collection ends up with two records for
"a@x.com". -/
theorem c4_counterexample :
    (register [] [aliceDoc] "a@x.com" "pw456" "Mallory" none 8 1001).1
      = .created (create_access_token [("sub", CVal.str "a@x.com")] 1001) ∧
    ((register [] [aliceDoc] "a@x.com" "pw456" "Mallory" none 8 1001).2.filter
        (fun d => d.lookup "email" == some (DVal.str "a@x.com"))).length
      = 2 := by decide

/-- C4 amended: duplicate registration is caught only by the pre-insert
findByEmail check.  Sequentially this suffices: on a store without the
email, the first registration succeeds and appends its document, and a
second registration of the same email fails with 400 and leaves the store
unchanged.  The insert itself reports no conflict (no unique index, no
exception handling), so a duplicate written between check and insert is
stored silently. -/
theorem c4_sequential_duplicate (store : Store) (email pw1 pw2 n1 n2 : String)
    (a1 a2 : Option String) (s1 s2 t1 t2 : Nat)
    (hfresh : get_user_by_email store email = none) :
    register store store email pw1 n1 a1 s1 t1
      = (.created (create_access_token [("sub", CVal.str email)] t1),
         store ++ [registerUserDoc email pw1 n1 a1 s1 t1]) ∧
    register (store ++ [registerUserDoc email pw1 n1 a1 s1 t1])
        (store ++ [registerUserDoc email pw1 n1 a1 s1 t1]) email pw2 n2 a2 s2 t2
      = (.httpError 400 "Почта уже зарегистрирована",
         store ++ [registerUserDoc email pw1 n1 a1 s1 t1]) := by
  have h2 : get_user_by_email
      (store ++ [registerUserDoc email pw1 n1 a1 s1 t1]) email
      = some (registerUserDoc email pw1 n1 a1 s1 t1) := by
    unfold get_user_by_email at hfresh ⊢
    rw [List.find?_append, hfresh]
    simp [registerUserDoc]
  constructor
  · unfold register
    rw [hfresh]
    rfl
  · unfold register
    rw [h2]
    rfl

/-- Witness for C4 amended: double registration on the empty store. -/
theorem c4_sequential_duplicate_witness :
    register [] [] "d@x.com" "pwone" "Dana" none 3 100
      = (.created (create_access_token [("sub", CVal.str "d@x.com")] 100),
         [] ++ [registerUserDoc "d@x.com" "pwone" "Dana" none 3 100]) ∧
    register ([] ++ [registerUserDoc "d@x.com" "pwone" "Dana" none 3 100])
        ([] ++ [registerUserDoc "d@x.com" "pwone" "Dana" none 3 100])
        "d@x.com" "pwtwo" "Dana2" none 4 200
      = (.httpError 400 "Почта уже зарегистрирована",
         [] ++ [registerUserDoc "d@x.com" "pwone" "Dana" none 3 100]) :=
  c4_sequential_duplicate [] "d@x.com" "pwone" "pwtwo" "Dana" "Dana2"
    none none 3 4 100 200 (by decide)

end Voxell
